import Mathlib

/-!
A shallow embedding of the graph-mutation and lifecycle engine of
`src/src/Modules/webaudio/AudioContext.cpp` (the `WebCore::AudioContext`
class of this LabSound snapshot) and of the MIDI note-name conversions of
`src/include/LabSound/extended/SampledInstrumentNode.h`.

Modelling conventions:
* Audio nodes are identified by `Nat` identities; a `shared_ptr<AudioNode>`
  is represented by the identity of the node it points to (a null pointer by
  `Option.none` where the C++ member can be null).
* `m_connectionRefCount` lives on `AudioNode`; we collect all nodes' counts
  into one function `Nat → Int` (the C++ field is an `int` moved by
  `atomicIncrement`/`atomicDecrement`, so it can go negative).
* `std::vector` members are `List`s (order and multiplicity preserved);
  the `std::set m_automaticPullNodes` is a duplicate-free `List` (the
  iteration order of a pointer-keyed `std::set` is unspecified, so list
  order stands in for it).
* Locks (`ContextGraphLock`, `ContextRenderLock`, `automaticSourcesMutex`)
  serialize the operations; the embedding models the serialized,
  single-threaded semantics of each operation and drops the lock objects.
* `AudioNodeInput` / `AudioNodeOutput` / `AudioSummingJunction` are not part
  of the two source files; where `AudioContext.cpp` calls into them the
  behaviour is modelled from the spec (each such definition says so in its
  doc comment).  Each node's `input(0)` summing junction is keyed by the
  identity of the node that owns it.
-/

/-- The state of one node's `input(0)` summing junction together with the
per-node lifecycle data that `AudioContext`'s mutation step manipulates:
every node's `m_connectionRefCount` (an `AudioNode` field), the context's
`m_referencedNodes` vector, and for every node the set of source nodes
whose `output(0)` is connected into its `input(0)` junction plus that
junction's dirty flag. -/
structure GraphState where
  m_connectionRefCount : Nat → Int
  m_referencedNodes : List Nat
  junctionSources : Nat → List Nat
  junctionDirty : Nat → Bool

/-- An entry of `pendingNodeConnections`: the C++
`PendingNodeConnection(from, to, connect)` holding two possibly-null
`shared_ptr<AudioNode>` and the intent flag. -/
structure PendingNodeConnection where
  fromNode : Option Nat
  toNode : Option Nat
  connect : Bool
deriving DecidableEq

/-- An entry of `pendingConnections`: the C++
`PendingConnection(fromInput, toOutput, connect)`; ports are identified by
the node owning them, and `fromInput` can be null (the
`disconnect(toOutput)` overload stores a null input). -/
structure PendingConnection where
  fromInput : Option Nat
  toOutput : Nat
  connect : Bool
deriving DecidableEq

/-- The `AudioContext` members that the modelled member functions touch.
`m_finishedNodes`, `m_nodesMarkedForDeletion`, `m_nodesToDelete` and
`automaticSources` are vectors of `shared_ptr`s; `m_automaticPullNodes` is
the write-side `std::set`, `m_renderingAutomaticPullNodes` the read-side
snapshot vector. -/
structure AudioContext where
  graph : GraphState
  m_finishedNodes : List Nat
  pendingNodeConnections : List PendingNodeConnection
  pendingConnections : List PendingConnection
  m_automaticPullNodes : List Nat
  m_renderingAutomaticPullNodes : List Nat
  m_automaticPullNodesNeedUpdating : Bool
  m_nodesMarkedForDeletion : List Nat
  m_nodesToDelete : List Nat
  m_isDeletionScheduled : Bool
  m_isInitialized : Bool
  m_isOfflineContext : Bool
  automaticSources : List Nat

/-- `atomicIncrement(&node->m_connectionRefCount)` for one node. -/
def incRefCount (g : GraphState) (x : Nat) : GraphState :=
  { g with m_connectionRefCount :=
      fun n => if n = x then g.m_connectionRefCount n + 1 else g.m_connectionRefCount n }

/-- `atomicDecrement(&node->m_connectionRefCount)` for one node. -/
def decRefCount (g : GraphState) (x : Nat) : GraphState :=
  { g with m_connectionRefCount :=
      fun n => if n = x then g.m_connectionRefCount n - 1 else g.m_connectionRefCount n }

/-- `AudioContext::refNode`: unconditionally `m_referencedNodes.push_back(node)`. -/
def refNode (g : GraphState) (node : Nat) : GraphState :=
  { g with m_referencedNodes := g.m_referencedNodes ++ [node] }

/-- `AudioContext::derefNode`: erase the first occurrence of `node` from
`m_referencedNodes` (the loop breaks after the first match); the
connection reference count is not consulted. -/
def derefNode (g : GraphState) (node : Nat) : GraphState :=
  { g with m_referencedNodes := g.m_referencedNodes.erase node }

/-- Modelled from the spec: `AudioNodeInput::connect` (the class is outside
the source files) links the edge into the destination's junction and marks
it dirty; "applying a `connect` edge is idempotent if the edge already
exists", so an already-present source changes nothing. -/
def audioNodeInputConnect (g : GraphState) (dst src : Nat) : GraphState :=
  if src ∈ g.junctionSources dst then g
  else
    { g with
      junctionSources := fun n => if n = dst then src :: g.junctionSources n else g.junctionSources n,
      junctionDirty := fun n => if n = dst then true else g.junctionDirty n }

/-- Modelled from the spec: `AudioNodeInput::disconnect` (outside the source
files) unlinks the edge and marks the junction dirty; "applying
`disconnect` on a non-existent edge is a no-op, not an error". -/
def audioNodeInputDisconnect (g : GraphState) (dst src : Nat) : GraphState :=
  if src ∈ g.junctionSources dst then
    { g with
      junctionSources := fun n => if n = dst then (g.junctionSources n).erase src else g.junctionSources n,
      junctionDirty := fun n => if n = dst then true else g.junctionDirty n }
  else g

/-- Modelled from the spec: `AudioNodeOutput::disconnectAll` (outside the
source files) removes every edge leaving `src`'s output, i.e. removes
`src` from every junction it feeds, dirtying each affected junction. -/
def audioNodeOutputDisconnectAll (g : GraphState) (src : Nat) : GraphState :=
  { g with
    junctionSources := fun n => (g.junctionSources n).erase src,
    junctionDirty := fun n => if src ∈ g.junctionSources n then true else g.junctionDirty n }

/-- One iteration of the `pendingConnections` loop in `AudioContext::update`:
`connect` applies `AudioNodeInput::connect(g, i.fromInput, i.toOutput)`,
otherwise `AudioNodeOutput::disconnectAll(g, i.toOutput)`.  A null
`fromInput` in the connect case would dereference a null pointer in C++
(no overload produces that shape); it is modelled as leaving the state
unchanged. -/
def applyPendingConnection (g : GraphState) (i : PendingConnection) : GraphState :=
  if i.connect then
    match i.fromInput with
    | some dst => audioNodeInputConnect g dst i.toOutput
    | none => g
  else
    audioNodeOutputDisconnectAll g i.toOutput

/-- One iteration of the `pendingNodeConnections` loop in
`AudioContext::update`.
Connect: `AudioNodeInput::connect(g, i.to->input(0), i.from->output(0))`,
`refNode(from)`, `refNode(to)`, increment both `m_connectionRefCount`s
(`enableOutputsIfNecessary` touches only `AudioNode` output state outside
the modelled fields).
Disconnect with null `from`: decrement `to`'s count and disconnect
everything from `to`'s `output(0)`.
Disconnect with both present: decrement both counts,
`AudioNodeInput::disconnect(g, i.from->input(0), i.to->output(0))` — note
the source really passes `from`'s input and `to`'s output, the mirror
image of the connect case — then `derefNode(from)`, `derefNode(to)`.
Shapes that would dereference a null `shared_ptr` in C++ (connect with a
null endpoint, disconnect with null `to`) are modelled as leaving the
state unchanged. -/
def applyNodeConnection (g : GraphState) (i : PendingNodeConnection) : GraphState :=
  if i.connect then
    match i.fromNode, i.toNode with
    | some f, some t =>
        incRefCount (incRefCount (refNode (refNode (audioNodeInputConnect g t f) f) t) f) t
    | _, _ => g
  else
    match i.fromNode, i.toNode with
    | none, some t =>
        audioNodeOutputDisconnectAll (decRefCount g t) t
    | some f, some t =>
        derefNode (derefNode (audioNodeInputDisconnect (decRefCount (decRefCount g f) t) f t) f) t
    | _, none => g

/-- `AudioContext::derefFinishedSourceNodes`: `derefNode` every entry of
`m_finishedNodes` in order, then clear the vector. -/
def AudioContext.derefFinishedSourceNodes (s : AudioContext) : AudioContext :=
  { s with
    graph := s.m_finishedNodes.foldl derefNode s.graph,
    m_finishedNodes := [] }

/-- `AudioContext::update`: under the lock, apply every entry of
`pendingConnections` in order and clear it, then apply every entry of
`pendingNodeConnections` in order and clear it, then
`derefFinishedSourceNodes`. -/
def AudioContext.update (s : AudioContext) : AudioContext :=
  let g1 := s.pendingConnections.foldl applyPendingConnection s.graph
  let g2 := s.pendingNodeConnections.foldl applyNodeConnection g1
  AudioContext.derefFinishedSourceNodes
    { s with graph := g2, pendingConnections := [], pendingNodeConnections := [] }

/-- `AudioContext::connect(from, to)`: append `(from, to, true)` to
`pendingNodeConnections`. -/
def AudioContext.connect (s : AudioContext) (fromNode toNode : Nat) : AudioContext :=
  { s with pendingNodeConnections :=
      s.pendingNodeConnections ++ [⟨some fromNode, some toNode, true⟩] }

/-- `AudioContext::disconnect(from, to)`: append `(from, to, false)` to
`pendingNodeConnections`. -/
def AudioContext.disconnect (s : AudioContext) (fromNode toNode : Nat) : AudioContext :=
  { s with pendingNodeConnections :=
      s.pendingNodeConnections ++ [⟨some fromNode, some toNode, false⟩] }

/-- `AudioContext::addAutomaticPullNode`: insert only if absent, and set
`m_automaticPullNodesNeedUpdating` only on an actual insertion. -/
def AudioContext.addAutomaticPullNode (s : AudioContext) (node : Nat) : AudioContext :=
  if node ∈ s.m_automaticPullNodes then s
  else
    { s with
      m_automaticPullNodes := s.m_automaticPullNodes ++ [node],
      m_automaticPullNodesNeedUpdating := true }

/-- `AudioContext::removeAutomaticPullNode`: erase only if present, and set
`m_automaticPullNodesNeedUpdating` only on an actual removal. -/
def AudioContext.removeAutomaticPullNode (s : AudioContext) (node : Nat) : AudioContext :=
  if node ∈ s.m_automaticPullNodes then
    { s with
      m_automaticPullNodes := s.m_automaticPullNodes.erase node,
      m_automaticPullNodesNeedUpdating := true }
  else s

/-- `AudioContext::updateAutomaticPullNodes`: when the dirty flag is set,
copy `m_automaticPullNodes` into `m_renderingAutomaticPullNodes` and clear
the flag; otherwise do nothing. -/
def AudioContext.updateAutomaticPullNodes (s : AudioContext) : AudioContext :=
  if s.m_automaticPullNodesNeedUpdating then
    { s with
      m_renderingAutomaticPullNodes := s.m_automaticPullNodes,
      m_automaticPullNodesNeedUpdating := false }
  else s

/-- Modelled from the spec:
`AudioSummingJunction::handleDirtyAudioSummingJunctions` (outside the
source files) resolves every dirty junction — recomputes its
contributing-edge list — and clears its dirty flag. -/
def handleDirtyAudioSummingJunctions (s : AudioContext) : AudioContext :=
  { s with graph := { s.graph with junctionDirty := fun _ => false } }

/-- `AudioContext::handlePreRenderTasks`: resolve dirty summing junctions,
then `updateAutomaticPullNodes`. -/
def AudioContext.handlePreRenderTasks (s : AudioContext) : AudioContext :=
  AudioContext.updateAutomaticPullNodes (handleDirtyAudioSummingJunctions s)

/-- `AudioContext::scheduleNodeDeletion`: bail out unless initialized (the
render lock's context is modelled as valid); when nodes are marked and no
deletion is scheduled, move them to `m_nodesToDelete` and set the flag
(the `callOnMainThread` callback later runs `deleteMarkedNodes` off the
render path). -/
def AudioContext.scheduleNodeDeletion (s : AudioContext) : AudioContext :=
  if s.m_isInitialized then
    if s.m_nodesMarkedForDeletion ≠ [] ∧ s.m_isDeletionScheduled = false then
      { s with
        m_nodesToDelete := s.m_nodesToDelete ++ s.m_nodesMarkedForDeletion,
        m_nodesMarkedForDeletion := [],
        m_isDeletionScheduled := true }
    else s
  else s

/-- The loop body of `AudioContext::handleAutomaticSources`: the C++ loop
assigns `i = erase(i)` and then still runs `++i`, so the element directly
after an erased finished source is skipped without being checked
(`hasFinished` is each node's `AudioScheduledSourceNode::hasFinished`,
supplied as a predicate). -/
def handleAutomaticSourcesLoop (hasFinished : Nat → Bool) : List Nat → List Nat
  | [] => []
  | x :: rest =>
      if hasFinished x then
        match rest with
        | [] => []
        | y :: rest2 => y :: handleAutomaticSourcesLoop hasFinished rest2
      else x :: handleAutomaticSourcesLoop hasFinished rest

/-- `AudioContext::handleAutomaticSources`: erase finished automatic
sources (with the iterator-skipping behaviour of the source loop). -/
def AudioContext.handleAutomaticSources (hasFinished : Nat → Bool) (s : AudioContext) : AudioContext :=
  { s with automaticSources := handleAutomaticSourcesLoop hasFinished s.automaticSources }

/-- `AudioContext::handlePostRenderTasks`: `scheduleNodeDeletion`, resolve
dirty summing junctions, `updateAutomaticPullNodes`,
`handleAutomaticSources`. -/
def AudioContext.handlePostRenderTasks (hasFinished : Nat → Bool) (s : AudioContext) : AudioContext :=
  AudioContext.handleAutomaticSources hasFinished
    (AudioContext.updateAutomaticPullNodes
      (handleDirtyAudioSummingJunctions (AudioContext.scheduleNodeDeletion s)))

/-- The graph state after `AudioNode` construction: every count zero (a
fresh node's `m_connectionRefCount` is 0 — it has no live edges), nothing
referenced, every junction empty and clean. -/
def initialGraphState : GraphState :=
  { m_connectionRefCount := fun _ => 0
    m_referencedNodes := []
    junctionSources := fun _ => []
    junctionDirty := fun _ => false }

/-- The member initialization of the `AudioContext` constructors: empty
containers, all flags false except `m_isOfflineContext`, which the
offline constructor sets. -/
def AudioContext.init (isOffline : Bool) : AudioContext :=
  { graph := initialGraphState
    m_finishedNodes := []
    pendingNodeConnections := []
    pendingConnections := []
    m_automaticPullNodes := []
    m_renderingAutomaticPullNodes := []
    m_automaticPullNodesNeedUpdating := false
    m_nodesMarkedForDeletion := []
    m_nodesToDelete := []
    m_isDeletionScheduled := false
    m_isInitialized := false
    m_isOfflineContext := isOffline
    automaticSources := [] }

/-- `const int MaxHardwareContexts = 4`. -/
def MaxHardwareContexts : Int := 4

/-- `AudioContext::create`: if `s_hardwareContextCount >= MaxHardwareContexts`
return null before constructing anything, otherwise construct a fresh
hardware context. -/
def AudioContext.create (s_hardwareContextCount : Int) : Option AudioContext :=
  if s_hardwareContextCount ≥ MaxHardwareContexts then none
  else some (AudioContext.init false)

/-- `isSampleRateRangeGood`: `sampleRate >= 44100 && sampleRate <= 96000`.
The C++ argument is a `float`; only order comparisons are performed on it,
so it is modelled as a rational (exact on every non-NaN float value). -/
def isSampleRateRangeGood (sampleRate : ℚ) : Bool :=
  decide (44100 ≤ sampleRate) && decide (sampleRate ≤ 96000)

/-- The two `ExceptionCode` values the modelled functions mention. -/
inductive ExceptionCode where
  | NO_ERR
  | SYNTAX_ERR
deriving DecidableEq

/-- `AudioContext::createOfflineContext`: reject (set `ec = SYNTAX_ERR`,
return null) when `numberOfChannels > 10`, the sample rate is out of
range, or an existing HRTF database loader has a different database sample
rate; otherwise construct a fresh offline context.  `loaderDatabaseSampleRate`
is `HRTFDatabaseLoader::loader()->databaseSampleRate()` when a loader
singleton already exists, `none` when it does not; the returned
`Option ExceptionCode` records whether the out-parameter `ec` was written. -/
def AudioContext.createOfflineContext (numberOfChannels : Nat) (sampleRate : ℚ)
    (loaderDatabaseSampleRate : Option ℚ) : Option AudioContext × Option ExceptionCode :=
  if decide (numberOfChannels > 10) || !(isSampleRateRangeGood sampleRate) ||
      (match loaderDatabaseSampleRate with
        | some r => decide (r ≠ sampleRate)
        | none => false) then
    (none, some ExceptionCode.SYNTAX_ERR)
  else
    (some (AudioContext.init true), none)

/-!  MIDI note-name conversions of `SamplerSound`
(`src/include/LabSound/extended/SampledInstrumentNode.h`).  A
`std::string` is modelled as its character list. -/

/-- The `midiTranslationArray` of both conversion functions. -/
def midiTranslationArray : List (List Char) :=
  [['C'], ['C', '#'], ['D'], ['D', '#'], ['E'], ['F'], ['F', '#'],
   ['G'], ['G', '#'], ['A'], ['A', '#'], ['B']]

/-- Decimal digit character for `n < 10`. -/
def digitChar (n : Nat) : Char := Char.ofNat (48 + n)

/-- Fuel-indexed decimal rendering of a natural number (the fuel is an
upper bound on the digit count, so the recursion is structural). -/
def natToCharsAux : Nat → Nat → List Char
  | 0, _ => []
  | fuel + 1, n =>
      if n < 10 then [digitChar n]
      else natToCharsAux fuel (n / 10) ++ [digitChar (n % 10)]

/-- Decimal rendering of a natural number. -/
def natToChars (n : Nat) : List Char := natToCharsAux (n + 1) n

/-- `std::to_string(int)`. -/
def intToChars (i : Int) : List Char :=
  if i < 0 then '-' :: natToChars i.natAbs else natToChars i.toNat

/-- Numeric value of a decimal digit character, `none` otherwise. -/
def digitVal (c : Char) : Option Nat :=
  if '0' ≤ c ∧ c ≤ '9' then some (c.toNat - 48) else none

/-- Accumulate the maximal leading run of decimal digits. -/
def readDigits : List Char → Nat → Nat
  | [], acc => acc
  | c :: cs, acc =>
      match digitVal c with
      | some d => readDigits cs (acc * 10 + d)
      | none => acc

/-- `std::stoi` on the strings this code builds (no leading whitespace):
an optional sign followed by at least one decimal digit; `none` models the
`std::invalid_argument` exception thrown when no digit can be consumed. -/
def stoi (s : List Char) : Option Int :=
  match s with
  | '-' :: c :: cs =>
      match digitVal c with
      | some d => some (-(readDigits cs d : Int))
      | none => none
  | '+' :: c :: cs =>
      match digitVal c with
      | some d => some (readDigits cs d : Int)
      | none => none
  | c :: cs =>
      match digitVal c with
      | some d => some (readDigits cs d : Int)
      | none => none
  | [] => none

/-- C `toupper` on the ASCII letters. -/
def toUpperChar (c : Char) : Char :=
  if 'a' ≤ c ∧ c ≤ 'z' then Char.ofNat (c.toNat - 32) else c

/-- The note-name search loop of `getMIDIFromNoteString`: `notePos` stays
`-1` when the name matches no entry. -/
def findNotePosAux : List (List Char) → List Char → Int → Int
  | [], _, _ => -1
  | a :: rest, s, i => if a = s then i else findNotePosAux rest s (i + 1)

/-- `notePos` for a note string. -/
def findNotePos (s : List Char) : Int := findNotePosAux midiTranslationArray s 0

/-- The `uint8_t` conversion of the final `(octave * 12.0) + notePos`
double (exact for these small integers); values outside `[0, 256)` are
undefined behaviour in C++ and are modelled by wrapping. -/
def toUInt8Wrap (i : Int) : Nat := (i % 256).toNat

/-- `SamplerSound::getMIDIFromNoteString`: parse the octave from the last
character via `stoi` (`none` models the exception it can throw; an empty
string would underflow `substr` and throw as well), strip it, uppercase,
turn `S` into `#`, look the name up, and return
`uint8_t((octave * 12.0) + notePos)`. -/
def getMIDIFromNoteString (noteName : List Char) : Option Nat :=
  match noteName.getLast? with
  | none => none
  | some lastChar =>
      match stoi [lastChar] with
      | none => none
      | some octave =>
          let noteString := noteName.dropLast
          let upper := noteString.map toUpperChar
          let replaced := upper.map fun c => if c = 'S' then '#' else c
          some (toUInt8Wrap (octave * 12 + findNotePos replaced))

/-- `SamplerSound::getNoteStringFromMIDI`: `octave = int(note / 12) - 1`,
`positionInOctave = note % 12`, array entry with `#` replaced by `S`,
then the decimal octave appended. -/
def getNoteStringFromMIDI (note : Nat) : List Char :=
  let octave : Int := (note / 12 : Nat) - 1
  let positionInOctave := note % 12
  let originalNote := midiTranslationArray.getD positionInOctave []
  let replaced := originalNote.map fun c => if c = '#' then 'S' else c
  replaced ++ intToChars octave


/-!  Derived definitions used by the claim statements. -/

/-- The spec's reference-set invariant: a node with
connection-reference-count > 0 must be present in `m_referencedNodes`. -/
def RefInvariant (g : GraphState) : Prop :=
  ∀ n, 0 < g.m_connectionRefCount n → n ∈ g.m_referencedNodes

/-- The strengthening that the queue-drain branches actually maintain:
every node's connection-reference-count is at most its number of
occurrences in the `m_referencedNodes` vector. -/
def RefCountBound (g : GraphState) : Prop :=
  ∀ n, g.m_connectionRefCount n ≤ (g.m_referencedNodes.count n : Int)

/-- A node-level request as submitted by application code:
`(from, to, isConnect)`. -/
def toPendingNodeConnection : Nat × Nat × Bool → PendingNodeConnection
  | (f, t, b) => ⟨some f, some t, b⟩

/-- Submit a sequence of node-level requests, in order, through the
`AudioContext::connect` / `AudioContext::disconnect` API. -/
def submitRequests (s : AudioContext) : List (Nat × Nat × Bool) → AudioContext
  | [] => s
  | (f, t, b) :: rest =>
      submitRequests (if b then AudioContext.connect s f t else AudioContext.disconnect s f t) rest

/-- The rejection condition of `createOfflineContext`, in the spec's terms:
more than 10 channels, sample rate outside the inclusive range
`[44100, 96000]`, or an already-existing HRTF loader whose database sample
rate differs. -/
def offlineRejectCondition (numberOfChannels : Nat) (sampleRate : ℚ)
    (loaderDatabaseSampleRate : Option ℚ) : Prop :=
  10 < numberOfChannels ∨ sampleRate < 44100 ∨ 96000 < sampleRate ∨
    ∃ r, loaderDatabaseSampleRate = some r ∧ r ≠ sampleRate

/-- Scenario A of the spec: fresh nodes `src = 0`, `gain = 1`, `dest = 2`;
`connect(src, gain)`, then `connect(gain, dest)`, then one mutation cycle. -/
def scenarioA : AudioContext :=
  AudioContext.update
    (AudioContext.connect (AudioContext.connect (AudioContext.init false) 0 1) 1 2)

/-- A context holding one referenced node `0` with one live connection
(count 1) that the render path has reported finished. -/
def finishedNodeContext : AudioContext :=
  { AudioContext.init false with
    graph :=
      { initialGraphState with
        m_connectionRefCount := fun n => if n = 0 then 1 else 0
        m_referencedNodes := [0] }
    m_finishedNodes := [0] }

/-- A context whose write-side automatic-pull set holds node `5` and whose
snapshot is stale (dirty flag set, snapshot still empty). -/
def stalePullContext : AudioContext :=
  { AudioContext.init false with
    m_automaticPullNodes := [5]
    m_automaticPullNodesNeedUpdating := true }

/-!  Projection lemmas for the elementary graph operations. -/

@[simp] theorem refNode_count (g : GraphState) (x : Nat) :
    (refNode g x).m_connectionRefCount = g.m_connectionRefCount := rfl

@[simp] theorem refNode_referencedNodes (g : GraphState) (x : Nat) :
    (refNode g x).m_referencedNodes = g.m_referencedNodes ++ [x] := rfl

@[simp] theorem refNode_junctionSources (g : GraphState) (x : Nat) :
    (refNode g x).junctionSources = g.junctionSources := rfl

@[simp] theorem refNode_junctionDirty (g : GraphState) (x : Nat) :
    (refNode g x).junctionDirty = g.junctionDirty := rfl

@[simp] theorem derefNode_count (g : GraphState) (x : Nat) :
    (derefNode g x).m_connectionRefCount = g.m_connectionRefCount := rfl

@[simp] theorem derefNode_referencedNodes (g : GraphState) (x : Nat) :
    (derefNode g x).m_referencedNodes = g.m_referencedNodes.erase x := rfl

@[simp] theorem derefNode_junctionSources (g : GraphState) (x : Nat) :
    (derefNode g x).junctionSources = g.junctionSources := rfl

@[simp] theorem derefNode_junctionDirty (g : GraphState) (x : Nat) :
    (derefNode g x).junctionDirty = g.junctionDirty := rfl

@[simp] theorem incRefCount_referencedNodes (g : GraphState) (x : Nat) :
    (incRefCount g x).m_referencedNodes = g.m_referencedNodes := rfl

@[simp] theorem incRefCount_junctionSources (g : GraphState) (x : Nat) :
    (incRefCount g x).junctionSources = g.junctionSources := rfl

@[simp] theorem incRefCount_junctionDirty (g : GraphState) (x : Nat) :
    (incRefCount g x).junctionDirty = g.junctionDirty := rfl

@[simp] theorem incRefCount_count_apply (g : GraphState) (x n : Nat) :
    (incRefCount g x).m_connectionRefCount n =
      if n = x then g.m_connectionRefCount n + 1 else g.m_connectionRefCount n := rfl

@[simp] theorem decRefCount_referencedNodes (g : GraphState) (x : Nat) :
    (decRefCount g x).m_referencedNodes = g.m_referencedNodes := rfl

@[simp] theorem decRefCount_junctionSources (g : GraphState) (x : Nat) :
    (decRefCount g x).junctionSources = g.junctionSources := rfl

@[simp] theorem decRefCount_junctionDirty (g : GraphState) (x : Nat) :
    (decRefCount g x).junctionDirty = g.junctionDirty := rfl

@[simp] theorem decRefCount_count_apply (g : GraphState) (x n : Nat) :
    (decRefCount g x).m_connectionRefCount n =
      if n = x then g.m_connectionRefCount n - 1 else g.m_connectionRefCount n := rfl

@[simp] theorem audioNodeInputConnect_count (g : GraphState) (dst src : Nat) :
    (audioNodeInputConnect g dst src).m_connectionRefCount = g.m_connectionRefCount := by
  unfold audioNodeInputConnect; split <;> rfl

@[simp] theorem audioNodeInputConnect_referencedNodes (g : GraphState) (dst src : Nat) :
    (audioNodeInputConnect g dst src).m_referencedNodes = g.m_referencedNodes := by
  unfold audioNodeInputConnect; split <;> rfl

@[simp] theorem audioNodeInputDisconnect_count (g : GraphState) (dst src : Nat) :
    (audioNodeInputDisconnect g dst src).m_connectionRefCount = g.m_connectionRefCount := by
  unfold audioNodeInputDisconnect; split <;> rfl

@[simp] theorem audioNodeInputDisconnect_referencedNodes (g : GraphState) (dst src : Nat) :
    (audioNodeInputDisconnect g dst src).m_referencedNodes = g.m_referencedNodes := by
  unfold audioNodeInputDisconnect; split <;> rfl

@[simp] theorem audioNodeOutputDisconnectAll_count (g : GraphState) (src : Nat) :
    (audioNodeOutputDisconnectAll g src).m_connectionRefCount = g.m_connectionRefCount := rfl

@[simp] theorem audioNodeOutputDisconnectAll_referencedNodes (g : GraphState) (src : Nat) :
    (audioNodeOutputDisconnectAll g src).m_referencedNodes = g.m_referencedNodes := rfl

theorem mem_junctionSources_audioNodeInputConnect (g : GraphState) (dst src : Nat) :
    src ∈ (audioNodeInputConnect g dst src).junctionSources dst := by
  unfold audioNodeInputConnect
  split
  · assumption
  · simp

/-- A count bounded by the occurrence count forces the spec's reference-set
invariant. -/
theorem RefCountBound.toRefInvariant {g : GraphState} (h : RefCountBound g) :
    RefInvariant g := by
  intro n hn
  have hb := h n
  by_contra hmem
  rw [List.count_eq_zero_of_not_mem hmem] at hb
  simp at hb
  omega

/-- Draining one `pendingNodeConnections` entry preserves the
count-vs-occurrence bound, whichever branch runs. -/
theorem applyNodeConnection_refCountBound (g : GraphState) (i : PendingNodeConnection)
    (h : RefCountBound g) : RefCountBound (applyNodeConnection g i) := by
  obtain ⟨of, ot, c⟩ := i
  intro n
  have hb := h n
  cases c
  · cases of with
    | none =>
        cases ot with
        | none => exact hb
        | some t =>
            simp [applyNodeConnection]
            split_ifs <;> omega
    | some f =>
        cases ot with
        | none => exact hb
        | some t =>
            simp [applyNodeConnection, List.count_erase]
            split_ifs <;> omega
  · cases of with
    | none =>
        cases ot with
        | none => exact hb
        | some _ => exact hb
    | some f =>
        cases ot with
        | none => exact hb
        | some t =>
            simp [applyNodeConnection, List.count_append, List.count_cons]
            split_ifs <;> omega

/-- `update` on a context with no pending port-level requests and no
finished nodes: the graph is the in-order fold of `pendingNodeConnections`
and both queues plus the finished list end empty. -/
theorem update_of_quiescent (s : AudioContext)
    (h1 : s.pendingConnections = []) (h2 : s.m_finishedNodes = []) :
    AudioContext.update s =
      { s with
        graph := s.pendingNodeConnections.foldl applyNodeConnection s.graph,
        pendingConnections := [],
        pendingNodeConnections := [],
        m_finishedNodes := [] } := by
  simp [AudioContext.update, AudioContext.derefFinishedSourceNodes, h1, h2]

/-- Submitting a request list through the `connect`/`disconnect` API only
appends the corresponding entries, in order, to `pendingNodeConnections`. -/
theorem submitRequests_eq (rs : List (Nat × Nat × Bool)) (s : AudioContext) :
    submitRequests s rs =
      { s with pendingNodeConnections :=
          s.pendingNodeConnections ++ rs.map toPendingNodeConnection } := by
  induction rs generalizing s with
  | nil => simp [submitRequests]
  | cons r rest ih =>
      obtain ⟨f, t, b⟩ := r
      cases b <;>
        simp [submitRequests, AudioContext.connect, AudioContext.disconnect, ih,
          toPendingNodeConnection]

/-- After applying a connect entry, the edge is present in the
destination's junction. -/
theorem applyNodeConnection_connect_mem (g : GraphState) (f t : Nat) :
    f ∈ (applyNodeConnection g ⟨some f, some t, true⟩).junctionSources t := by
  show f ∈ (incRefCount (incRefCount (refNode (refNode
      (audioNodeInputConnect g t f) f) t) f) t).junctionSources t
  simp [mem_junctionSources_audioNodeInputConnect]

/-- Applying a connect entry whose edge already exists skips the junction
update (the spec-modelled idempotent part) but still runs `refNode` twice
and both increments. -/
theorem applyNodeConnection_connect_of_mem (g : GraphState) (f t : Nat)
    (hmem : f ∈ g.junctionSources t) :
    applyNodeConnection g ⟨some f, some t, true⟩ =
      incRefCount (incRefCount (refNode (refNode g f) t) f) t := by
  show incRefCount (incRefCount (refNode (refNode
      (audioNodeInputConnect g t f) f) t) f) t = _
  rw [audioNodeInputConnect, if_pos hmem]

/-!  Claim theorems. -/

/-- **C1 counterexample**: submitting `connect(0, 1)` twice to a fresh
context and running one `update` does *not* yield the same graph state as
submitting it once — the duplicate connect increments node 0's
connection-reference-count a second time (2 instead of 1). -/
theorem C1_counterexample :
    AudioContext.update
        (AudioContext.connect (AudioContext.connect (AudioContext.init false) 0 1) 0 1) ≠
      AudioContext.update (AudioContext.connect (AudioContext.init false) 0 1) := by
  intro h
  exact absurd (congrArg (fun c => c.graph.m_connectionRefCount 0) h) (by decide)

/-- **C1 (amended)**: submitting `connect(from, to)` twice and running one
`update` yields the same junction membership and junction dirty flags as
submitting it once (the edge insert is idempotent), but it is not the same
graph state: each endpoint's connection-reference-count is incremented
once more and one more occurrence of each endpoint is appended to
`m_referencedNodes`. -/
theorem C1_amended (s : AudioContext) (f t : Nat)
    (hpc : s.pendingConnections = []) (hpnc : s.pendingNodeConnections = [])
    (hfin : s.m_finishedNodes = []) :
    ((AudioContext.update (AudioContext.connect (AudioContext.connect s f t) f t)).graph.junctionSources
        = (AudioContext.update (AudioContext.connect s f t)).graph.junctionSources) ∧
    ((AudioContext.update (AudioContext.connect (AudioContext.connect s f t) f t)).graph.junctionDirty
        = (AudioContext.update (AudioContext.connect s f t)).graph.junctionDirty) ∧
    ((AudioContext.update (AudioContext.connect (AudioContext.connect s f t) f t)).graph.m_referencedNodes
        = (AudioContext.update (AudioContext.connect s f t)).graph.m_referencedNodes ++ [f, t]) ∧
    (∀ n, (AudioContext.update (AudioContext.connect (AudioContext.connect s f t) f t)).graph.m_connectionRefCount n
        = (AudioContext.update (AudioContext.connect s f t)).graph.m_connectionRefCount n
            + (if n = f then 1 else 0) + (if n = t then 1 else 0)) := by
  have u1 := update_of_quiescent (AudioContext.connect s f t) hpc hfin
  have u2 := update_of_quiescent
    (AudioContext.connect (AudioContext.connect s f t) f t) hpc hfin
  have h2 := applyNodeConnection_connect_of_mem
    (applyNodeConnection s.graph ⟨some f, some t, true⟩) f t
    (applyNodeConnection_connect_mem s.graph f t)
  rw [u1, u2]
  simp only [AudioContext.connect, hpnc, List.nil_append, List.cons_append,
    List.foldl_cons, List.foldl_nil]
  rw [h2]
  refine ⟨rfl, rfl, by simp [incRefCount, refNode], ?_⟩
  intro n
  simp [incRefCount]
  split_ifs <;> omega

/-- **C2 counterexample**: the invariant "count > 0 implies membership in
`m_referencedNodes`" holds of `finishedNodeContext` but is destroyed by one
`update`: `derefFinishedSourceNodes` removes the finished node 0 from the
reference set even though its connection-reference-count is still 1. -/
theorem C2_counterexample :
    RefInvariant finishedNodeContext.graph ∧
    ¬ RefInvariant (AudioContext.update finishedNodeContext).graph := by
  constructor
  · intro n hn
    by_cases h : n = 0
    · subst h
      simp [finishedNodeContext, initialGraphState]
    · simp [finishedNodeContext, initialGraphState, h] at hn
  · intro h
    exact absurd (h 0 (by decide)) (by decide)

/-- One `pendingConnections` entry touches only junction state, so it
trivially preserves the count-vs-occurrence bound. -/
theorem applyPendingConnection_refCountBound (g : GraphState) (i : PendingConnection)
    (h : RefCountBound g) : RefCountBound (applyPendingConnection g i) := by
  intro n
  have hb := h n
  obtain ⟨fi, t0, c⟩ := i
  cases c
  · simpa [applyPendingConnection] using hb
  · cases fi <;> simpa [applyPendingConnection] using hb

/-- **C2 (amended)**: the queue-drain branches of `update` (every
`pendingNodeConnections` entry — connect, edge disconnect, disconnect-all —
and every `pendingConnections` entry) preserve the strengthened invariant
that each node's connection-reference-count is at most its number of
occurrences in `m_referencedNodes`, and that bound forces the spec's
invariant (count > 0 implies membership).  The claim fails only for
`derefNode` / `derefFinishedSourceNodes`, which remove a node from the
reference set without consulting its count (see the counterexample). -/
theorem C2_amended :
    (∀ (g : GraphState) (i : PendingNodeConnection),
        RefCountBound g → RefCountBound (applyNodeConnection g i)) ∧
    (∀ (g : GraphState) (i : PendingConnection),
        RefCountBound g → RefCountBound (applyPendingConnection g i)) ∧
    (∀ g : GraphState, RefCountBound g → RefInvariant g) :=
  ⟨applyNodeConnection_refCountBound, applyPendingConnection_refCountBound,
    fun _ h => h.toRefInvariant⟩

/-- **C2 witness**: the amended theorem applied to the empty graph and a
concrete connect entry. -/
theorem C2_amended_witness :
    RefCountBound (applyNodeConnection initialGraphState ⟨some 0, some 1, true⟩) ∧
    RefInvariant initialGraphState := by
  have hb : RefCountBound initialGraphState := by
    intro n
    simp [RefCountBound, initialGraphState]
  exact ⟨C2_amended.1 initialGraphState ⟨some 0, some 1, true⟩ hb,
    C2_amended.2.2 initialGraphState hb⟩

/-- **C1 witness**: the amended theorem at a fresh context and edge
`(0, 1)` — the duplicate connect appends `[0, 1]` to the reference set
once more. -/
theorem C1_amended_witness :
    (AudioContext.update
        (AudioContext.connect (AudioContext.connect (AudioContext.init false) 0 1) 0 1)).graph.m_referencedNodes
      = (AudioContext.update (AudioContext.connect (AudioContext.init false) 0 1)).graph.m_referencedNodes
          ++ [0, 1] :=
  (C1_amended (AudioContext.init false) 0 1 rfl rfl rfl).2.2.1

/-- **C3 counterexample**: submitting `disconnect(0, 1)` to a fresh context
in which that edge does not exist and running one `update` does *not*
leave the state unchanged — node 0's connection-reference-count is
unconditionally decremented to -1. -/
theorem C3_counterexample :
    AudioContext.update (AudioContext.disconnect (AudioContext.init false) 0 1) ≠
      AudioContext.init false := by
  intro h
  exact absurd (congrArg (fun c => c.graph.m_connectionRefCount 0) h) (by decide)

/-- Decrementing a reference count does not change which junction edges
`audioNodeInputDisconnect` touches. -/
theorem audioNodeInputDisconnect_decRefCount_junctionSources (g : GraphState) (x f t : Nat) :
    (audioNodeInputDisconnect (decRefCount g x) f t).junctionSources
      = (audioNodeInputDisconnect g f t).junctionSources := by
  by_cases h : t ∈ g.junctionSources f <;>
    simp [audioNodeInputDisconnect, decRefCount, h]

/-- Decrementing a reference count does not change which junctions
`audioNodeInputDisconnect` dirties. -/
theorem audioNodeInputDisconnect_decRefCount_junctionDirty (g : GraphState) (x f t : Nat) :
    (audioNodeInputDisconnect (decRefCount g x) f t).junctionDirty
      = (audioNodeInputDisconnect g f t).junctionDirty := by
  by_cases h : t ∈ g.junctionSources f <;>
    simp [audioNodeInputDisconnect, decRefCount, h]

/-- **C3 (amended)**: disconnecting a non-existent edge is processed
without error, but it is not a no-op, and its junction effect targets the
*mirrored* edge: for every quiescent context, one `update` after
`disconnect(from, to)` unconditionally decrements both endpoints'
connection-reference-counts (possibly below zero), removes one
`m_referencedNodes` occurrence of each endpoint if present, and changes
junction state exactly as
`AudioNodeInput::disconnect(from->input(0), to->output(0))` does —
removing `to` from `from`'s junction and dirtying it when that reverse
edge exists.  In particular junction membership and dirty flags are left
untouched precisely when the reverse edge `(to, from)` is absent,
regardless of whether the claimed edge `(from, to)` exists. -/
theorem C3_amended (s : AudioContext) (f t : Nat)
    (hpc : s.pendingConnections = []) (hpnc : s.pendingNodeConnections = [])
    (hfin : s.m_finishedNodes = []) :
    ((AudioContext.update (AudioContext.disconnect s f t)).graph.junctionSources
        = (audioNodeInputDisconnect s.graph f t).junctionSources) ∧
    ((AudioContext.update (AudioContext.disconnect s f t)).graph.junctionDirty
        = (audioNodeInputDisconnect s.graph f t).junctionDirty) ∧
    ((AudioContext.update (AudioContext.disconnect s f t)).graph.m_referencedNodes
        = (s.graph.m_referencedNodes.erase f).erase t) ∧
    (∀ n, (AudioContext.update (AudioContext.disconnect s f t)).graph.m_connectionRefCount n
        = s.graph.m_connectionRefCount n
            - (if n = f then 1 else 0) - (if n = t then 1 else 0)) ∧
    ((AudioContext.update (AudioContext.disconnect s f t)).pendingNodeConnections = []) ∧
    ((AudioContext.update (AudioContext.disconnect s f t)).pendingConnections = []) ∧
    (t ∉ s.graph.junctionSources f →
      (AudioContext.update (AudioContext.disconnect s f t)).graph.junctionSources
          = s.graph.junctionSources ∧
      (AudioContext.update (AudioContext.disconnect s f t)).graph.junctionDirty
          = s.graph.junctionDirty) := by
  have u := update_of_quiescent (AudioContext.disconnect s f t) hpc hfin
  have hl : (AudioContext.disconnect s f t).pendingNodeConnections
      = [⟨some f, some t, false⟩] := by
    simp [AudioContext.disconnect, hpnc]
  have hg : (AudioContext.update (AudioContext.disconnect s f t)).graph
      = derefNode (derefNode (audioNodeInputDisconnect
          (decRefCount (decRefCount s.graph f) t) f t) f) t := by
    rw [u]
    show (AudioContext.disconnect s f t).pendingNodeConnections.foldl applyNodeConnection
        (AudioContext.disconnect s f t).graph = _
    rw [hl, List.foldl_cons, List.foldl_nil]
    rfl
  refine ⟨?_, ?_, ?_, ?_, ?_, ?_, ?_⟩
  · rw [hg]
    simp only [derefNode_junctionSources]
    rw [audioNodeInputDisconnect_decRefCount_junctionSources,
      audioNodeInputDisconnect_decRefCount_junctionSources]
  · rw [hg]
    simp only [derefNode_junctionDirty]
    rw [audioNodeInputDisconnect_decRefCount_junctionDirty,
      audioNodeInputDisconnect_decRefCount_junctionDirty]
  · rw [hg]
    simp only [derefNode_referencedNodes, audioNodeInputDisconnect_referencedNodes,
      decRefCount_referencedNodes]
  · intro n
    rw [hg]
    simp only [derefNode_count, audioNodeInputDisconnect_count, decRefCount_count_apply]
    split_ifs <;> omega
  · rw [u]
  · rw [u]
  · intro htf
    constructor
    · rw [hg]
      simp only [derefNode_junctionSources]
      rw [audioNodeInputDisconnect_decRefCount_junctionSources,
        audioNodeInputDisconnect_decRefCount_junctionSources,
        audioNodeInputDisconnect, if_neg htf]
    · rw [hg]
      simp only [derefNode_junctionDirty]
      rw [audioNodeInputDisconnect_decRefCount_junctionDirty,
        audioNodeInputDisconnect_decRefCount_junctionDirty,
        audioNodeInputDisconnect, if_neg htf]

/-- **C3 witness**: the amended theorem at a fresh context (where the
reverse edge `(1, 0)` is absent) — junction membership is untouched. -/
theorem C3_amended_witness :
    (AudioContext.update (AudioContext.disconnect (AudioContext.init false) 0 1)).graph.junctionSources
      = (AudioContext.init false).graph.junctionSources :=
  ((C3_amended (AudioContext.init false) 0 1 rfl rfl rfl).2.2.2.2.2.2 (by decide)).1

/-- `scheduleNodeDeletion` never touches the automatic-pull registry. -/
@[simp] theorem scheduleNodeDeletion_automaticPullNodes (s : AudioContext) :
    (AudioContext.scheduleNodeDeletion s).m_automaticPullNodes = s.m_automaticPullNodes := by
  unfold AudioContext.scheduleNodeDeletion
  split_ifs <;> rfl

/-- `scheduleNodeDeletion` never touches the pull snapshot. -/
@[simp] theorem scheduleNodeDeletion_renderingAutomaticPullNodes (s : AudioContext) :
    (AudioContext.scheduleNodeDeletion s).m_renderingAutomaticPullNodes
      = s.m_renderingAutomaticPullNodes := by
  unfold AudioContext.scheduleNodeDeletion
  split_ifs <;> rfl

/-- `scheduleNodeDeletion` never touches the pull dirty flag. -/
@[simp] theorem scheduleNodeDeletion_automaticPullNodesNeedUpdating (s : AudioContext) :
    (AudioContext.scheduleNodeDeletion s).m_automaticPullNodesNeedUpdating
      = s.m_automaticPullNodesNeedUpdating := by
  unfold AudioContext.scheduleNodeDeletion
  split_ifs <;> rfl

/-- **C4 counterexample**: with a stale snapshot (dirty flag set), the
pre-render hook itself rebuilds `m_renderingAutomaticPullNodes` — it does
not leave the snapshot unchanged as the claim states. -/
theorem C4_counterexample :
    (AudioContext.handlePreRenderTasks stalePullContext).m_renderingAutomaticPullNodes ≠
      stalePullContext.m_renderingAutomaticPullNodes := by decide

/-- **C4 (amended)**: it is exactly the other way around: the mutation
cycle `update` never touches the snapshot or the dirty flag, while both
render hooks (`handlePreRenderTasks` and `handlePostRenderTasks`, each
calling `updateAutomaticPullNodes`) rebuild the snapshot from the
write-side set and clear the flag whenever the flag is set, and leave both
unchanged when the flag is clear. -/
theorem C4_amended (s : AudioContext) (hasFinished : Nat → Bool) :
    ((AudioContext.update s).m_renderingAutomaticPullNodes = s.m_renderingAutomaticPullNodes) ∧
    ((AudioContext.update s).m_automaticPullNodesNeedUpdating = s.m_automaticPullNodesNeedUpdating) ∧
    (s.m_automaticPullNodesNeedUpdating = true →
      (AudioContext.handlePreRenderTasks s).m_renderingAutomaticPullNodes = s.m_automaticPullNodes ∧
      (AudioContext.handlePreRenderTasks s).m_automaticPullNodesNeedUpdating = false ∧
      (AudioContext.handlePostRenderTasks hasFinished s).m_renderingAutomaticPullNodes
        = s.m_automaticPullNodes ∧
      (AudioContext.handlePostRenderTasks hasFinished s).m_automaticPullNodesNeedUpdating = false) ∧
    (s.m_automaticPullNodesNeedUpdating = false →
      (AudioContext.handlePreRenderTasks s).m_renderingAutomaticPullNodes
        = s.m_renderingAutomaticPullNodes ∧
      (AudioContext.handlePostRenderTasks hasFinished s).m_renderingAutomaticPullNodes
        = s.m_renderingAutomaticPullNodes) := by
  refine ⟨rfl, rfl, ?_, ?_⟩
  · intro h
    refine ⟨?_, ?_, ?_, ?_⟩ <;>
      simp [AudioContext.handlePreRenderTasks, AudioContext.handlePostRenderTasks,
        AudioContext.updateAutomaticPullNodes, handleDirtyAudioSummingJunctions,
        AudioContext.handleAutomaticSources, h]
  · intro h
    constructor <;>
      simp [AudioContext.handlePreRenderTasks, AudioContext.handlePostRenderTasks,
        AudioContext.updateAutomaticPullNodes, handleDirtyAudioSummingJunctions,
        AudioContext.handleAutomaticSources, h]

/-- **C4 witness**: the amended theorem at the stale-snapshot context —
the pre-render hook publishes the write-side set `[5]`. -/
theorem C4_amended_witness :
    (AudioContext.handlePreRenderTasks stalePullContext).m_renderingAutomaticPullNodes
      = stalePullContext.m_automaticPullNodes :=
  ((C4_amended stalePullContext (fun _ => false)).2.2.1 rfl).1

/-- **C5**: submitting any sequence of connect/disconnect requests from a
single thread and running one `update` drains both pending queues and
produces exactly the graph state obtained by applying the requests in
submission order — no reordering, no coalescing, no dropped request. -/
theorem C5_ordering (s : AudioContext) (rs : List (Nat × Nat × Bool))
    (hpc : s.pendingConnections = []) (hpnc : s.pendingNodeConnections = [])
    (hfin : s.m_finishedNodes = []) :
    ((AudioContext.update (submitRequests s rs)).graph
        = (rs.map toPendingNodeConnection).foldl applyNodeConnection s.graph) ∧
    ((AudioContext.update (submitRequests s rs)).pendingNodeConnections = []) ∧
    ((AudioContext.update (submitRequests s rs)).pendingConnections = []) := by
  have hs := submitRequests_eq rs s
  have u := update_of_quiescent (submitRequests s rs)
    (by rw [hs]; exact hpc) (by rw [hs]; exact hfin)
  rw [u, hs]
  simp [hpnc]

/-- **C5 witness**: the ordering theorem at a fresh context and the
two-request sequence `connect(0, 1); disconnect(0, 1)`. -/
theorem C5_ordering_witness :
    (AudioContext.update (submitRequests (AudioContext.init false)
        [(0, 1, true), (0, 1, false)])).graph
      = ([(0, 1, true), (0, 1, false)].map toPendingNodeConnection).foldl
          applyNodeConnection (AudioContext.init false).graph :=
  (C5_ordering (AudioContext.init false) [(0, 1, true), (0, 1, false)] rfl rfl rfl).1

/-- **C6**: Scenario A — after `connect(src, gain)`, `connect(gain, dest)`
and one mutation cycle on fresh nodes `src = 0`, `gain = 1`, `dest = 2`,
both `src` and `gain` are in the reference set, `src`'s
connection-reference-count is 1 and `gain`'s is 2. -/
theorem C6_scenarioA :
    0 ∈ scenarioA.graph.m_referencedNodes ∧
    1 ∈ scenarioA.graph.m_referencedNodes ∧
    scenarioA.graph.m_connectionRefCount 0 = 1 ∧
    scenarioA.graph.m_connectionRefCount 1 = 2 := by decide

/-- **C7**: `AudioContext::create` reports hitting the concurrent-context
limit as a creation failure (null), constructing nothing, and below the
limit returns a fresh hardware context. -/
theorem C7_create (s_hardwareContextCount : Int) :
    (MaxHardwareContexts ≤ s_hardwareContextCount →
        AudioContext.create s_hardwareContextCount = none) ∧
    (s_hardwareContextCount < MaxHardwareContexts →
        AudioContext.create s_hardwareContextCount = some (AudioContext.init false)) := by
  constructor
  · intro h
    rw [AudioContext.create, if_pos h]
  · intro h
    rw [AudioContext.create, if_neg (not_le.mpr h)]

/-- **C7 witness**: at the limit (count 4) creation fails; below it
(count 3) it returns a fresh context. -/
theorem C7_create_witness :
    AudioContext.create 4 = none ∧
    AudioContext.create 3 = some (AudioContext.init false) :=
  ⟨(C7_create 4).1 (by decide), (C7_create 3).2 (by decide)⟩

/-- **C8**: `addAutomaticPullNode` / `removeAutomaticPullNode` are
idempotent on the write-side set: adding a present node or removing an
absent one leaves the whole context (set and dirty flag included)
unchanged, while an actual insertion or removal changes the set and sets
the dirty flag. -/
theorem C8_automaticPullNodes (s : AudioContext) (n : Nat) :
    (n ∈ s.m_automaticPullNodes → AudioContext.addAutomaticPullNode s n = s) ∧
    (n ∉ s.m_automaticPullNodes →
      (AudioContext.addAutomaticPullNode s n).m_automaticPullNodes ≠ s.m_automaticPullNodes ∧
      (AudioContext.addAutomaticPullNode s n).m_automaticPullNodesNeedUpdating = true) ∧
    (n ∉ s.m_automaticPullNodes → AudioContext.removeAutomaticPullNode s n = s) ∧
    (n ∈ s.m_automaticPullNodes →
      (AudioContext.removeAutomaticPullNode s n).m_automaticPullNodes ≠ s.m_automaticPullNodes ∧
      (AudioContext.removeAutomaticPullNode s n).m_automaticPullNodesNeedUpdating = true) := by
  refine ⟨?_, ?_, ?_, ?_⟩
  · intro h
    simp [AudioContext.addAutomaticPullNode, h]
  · intro h
    refine ⟨?_, ?_⟩
    · intro he
      have hlen := congrArg List.length he
      simp [AudioContext.addAutomaticPullNode, h] at hlen
    · simp [AudioContext.addAutomaticPullNode, h]
  · intro h
    simp [AudioContext.removeAutomaticPullNode, h]
  · intro h
    refine ⟨?_, ?_⟩
    · intro he
      have hlen := congrArg List.length he
      have hpos := List.length_pos_of_mem h
      simp [AudioContext.removeAutomaticPullNode, h, List.length_erase_of_mem h] at hlen
      omega
    · simp [AudioContext.removeAutomaticPullNode, h]

/-- **C8 witness**: on a context whose write-side set is `[5]`, adding 5
again is the identity and removing 5 sets the dirty flag. -/
theorem C8_automaticPullNodes_witness :
    AudioContext.addAutomaticPullNode stalePullContext 5 = stalePullContext ∧
    (AudioContext.removeAutomaticPullNode stalePullContext 5).m_automaticPullNodesNeedUpdating
      = true :=
  ⟨(C8_automaticPullNodes stalePullContext 5).1 (by decide),
    ((C8_automaticPullNodes stalePullContext 5).2.2.2 (by decide)).2⟩

set_option linter.unnecessarySeqFocus false in
/-- **C9**: `createOfflineContext` validates its arguments and fails
atomically — whenever more than 10 channels are requested, the sample rate
lies outside `[44100, 96000]`, or an existing HRTF loader's database
sample rate differs, it sets `SYNTAX_ERR` and returns null without
constructing a context; otherwise it returns a fresh offline context and
leaves the exception code untouched. -/
theorem C9_createOfflineContext (numberOfChannels : Nat) (sampleRate : ℚ)
    (loaderDatabaseSampleRate : Option ℚ) :
    (offlineRejectCondition numberOfChannels sampleRate loaderDatabaseSampleRate →
      AudioContext.createOfflineContext numberOfChannels sampleRate loaderDatabaseSampleRate
        = (none, some ExceptionCode.SYNTAX_ERR)) ∧
    (¬ offlineRejectCondition numberOfChannels sampleRate loaderDatabaseSampleRate →
      AudioContext.createOfflineContext numberOfChannels sampleRate loaderDatabaseSampleRate
        = (some (AudioContext.init true), none)) := by
  have key : (decide (numberOfChannels > 10) || !(isSampleRateRangeGood sampleRate) ||
        (match loaderDatabaseSampleRate with
          | some r => decide (r ≠ sampleRate)
          | none => false)) = true ↔
      offlineRejectCondition numberOfChannels sampleRate loaderDatabaseSampleRate := by
    cases loaderDatabaseSampleRate <;>
      simp [offlineRejectCondition, isSampleRateRangeGood, not_and_or, not_le] <;>
      tauto
  constructor
  · intro h
    rw [AudioContext.createOfflineContext.eq_def, if_pos (key.mpr h)]
  · intro h
    rw [AudioContext.createOfflineContext.eq_def, if_neg]
    intro hb
    exact h (key.mp hb)

/-- **C9 witness**: 11 channels are rejected with `SYNTAX_ERR`; 2 channels
at 44100 with no pre-existing loader succeed. -/
theorem C9_createOfflineContext_witness :
    AudioContext.createOfflineContext 11 44100 none
        = (none, some ExceptionCode.SYNTAX_ERR) ∧
    AudioContext.createOfflineContext 2 44100 none
        = (some (AudioContext.init true), none) :=
  ⟨(C9_createOfflineContext 11 44100 none).1 (Or.inl (by norm_num)),
    (C9_createOfflineContext 2 44100 none).2 (by
      rintro (h | h | h | ⟨r, hr, _⟩)
      · exact absurd h (by norm_num)
      · exact absurd h (by norm_num)
      · exact absurd h (by norm_num)
      · cases hr)⟩

/-- **C10 counterexample**: the conversions are not mutually inverse —
MIDI note 60 renders as `"C4"`, which parses back to 48, not 60 (the
parser omits the `+1` octave offset the renderer applies). -/
theorem C10_counterexample :
    getMIDIFromNoteString (getNoteStringFromMIDI 60) = some 48 ∧ (48 : Nat) ≠ 60 := by
  decide

/-- **C10 (amended)**: for every MIDI note number in `12 .. 127` the
round trip parses back to exactly one octave (12 semitones) lower:
`getMIDIFromNoteString (getNoteStringFromMIDI n) = n - 12`.  (For
`n < 12` the rendered octave is `-1`, whose trailing digit parses as
octave 1 while the leftover name matches nothing, so every such note
parses back to 11.) -/
theorem C10_amended (n : Nat) (h1 : n < 128) (h2 : 12 ≤ n) :
    getMIDIFromNoteString (getNoteStringFromMIDI n) = some (n - 12) := by
  revert h2
  revert h1
  revert n
  decide

/-- **C10 witness**: the amended round trip at note 100. -/
theorem C10_amended_witness :
    getMIDIFromNoteString (getNoteStringFromMIDI 100) = some (100 - 12) :=
  C10_amended 100 (by decide) (by decide)
